import Mathlib

/-!
Shallow embedding of the attendance-eligibility logic of the college
attendance tracker client.

The client pages read lessons (weekly schedule rows with times stored as
minutes since midnight) and decide, from the browser clock, whether a
student may mark attendance.  The embedding mirrors the page-level
helpers:

* `isAttendanceWindowOpen` — student dashboard;
* `canMarkAttendance`, `isLessonInFuture`, `isLessonInPast` — student
  lessons page;
* `calculateLessonDate`, `saveAllAttendance` — teacher bulk-attendance
  page (the latter as an event-trace model of the sequential save loop);
* `formSchemaParse` — the zod form schema of the create-lesson page.

JavaScript numbers are modelled as `Int` (all quantities involved are
integral), optional fields as `Option`, and the JS falsy-or `x || d` on
numbers as `jsOr`.
-/

namespace CollegeAttendance

/-- Observations of a JavaScript `Date`: `getTime()` in epoch
milliseconds and `getHours() * 60 + getMinutes()`, the minutes elapsed
since local midnight. -/
structure Timestamp where
  epochMs : Int
  minutesOfDay : Int
  deriving Repr, DecidableEq

/-- The current instant as the pages observe it from `new Date()`:
`getDay()` (0–6, Sunday–Saturday), `getHours() * 60 + getMinutes()`,
and `getTime()`. -/
structure Clock where
  day : Int
  minutes : Int
  epochMs : Int
  deriving Repr, DecidableEq

/-- A lesson row as the client pages consume it.  `attendanceWindowMinutes`
may be absent, `createdAt` is the creation timestamp when the API supplies
one, and `attendance` is the id of the current student's attendance record
when one exists (used only by the student lessons page). -/
structure Lesson where
  id : Int
  dayOfWeek : Int
  startTimeMinutes : Int
  durationMinutes : Int
  attendanceWindowMinutes : Option Int
  createdAt : Option Timestamp
  attendance : Option Int
  deriving Repr, DecidableEq

/-- JavaScript `x || d` for an optional numeric field: the default is
used when the field is absent, and also when it is `0`, since `0` is
falsy. -/
def jsOr (x : Option Int) (d : Int) : Int :=
  match x with
  | none => d
  | some v => if v = 0 then d else v

/-- Milliseconds in 24 hours, the instant-lesson cutoff
`24 * 60 * 60 * 1000`. -/
def msPerDay : Int := 24 * 60 * 60 * 1000

/-- Student dashboard: `lesson.createdAt && (new Date().getTime() -
new Date(lesson.createdAt).getTime() < 24 * 60 * 60 * 1000)`. -/
def isInstantLesson (lesson : Lesson) (now : Clock) : Bool :=
  match lesson.createdAt with
  | none => false
  | some c => decide (now.epochMs - c.epochMs < msPerDay)

/-- The regular-lesson branch of the student dashboard check:
`currentMinutes >= lesson.startTimeMinutes` and
`currentMinutes <= lesson.startTimeMinutes +
(lesson.attendanceWindowMinutes || 30)`. -/
def regularWindowOpen (lesson : Lesson) (now : Clock) : Bool :=
  let isAfterStart := decide (lesson.startTimeMinutes ≤ now.minutes)
  let attendanceWindowEndMinutes :=
    lesson.startTimeMinutes + jsOr lesson.attendanceWindowMinutes 30
  let isBeforeWindowEnd := decide (now.minutes ≤ attendanceWindowEndMinutes)
  isAfterStart && isBeforeWindowEnd

/-- Student dashboard `isAttendanceWindowOpen`: requires the lesson's
day of week to be today; for an instant lesson (created within the past
24 hours) it only requires the current time to be at most the larger of
`startTimeMinutes + window` and `creationMinutes + window`; otherwise it
requires the current time to lie in
`[startTimeMinutes, startTimeMinutes + window]`, the window defaulting
to 30 via `||`. -/
def isAttendanceWindowOpen (lesson : Lesson) (now : Clock) : Bool :=
  if lesson.dayOfWeek ≠ now.day then false
  else
    match lesson.createdAt with
    | some c =>
      if now.epochMs - c.epochMs < msPerDay then
        let endFromStartTime :=
          lesson.startTimeMinutes + jsOr lesson.attendanceWindowMinutes 30
        let endFromCreationTime :=
          c.minutesOfDay + jsOr lesson.attendanceWindowMinutes 30
        let attendanceWindowEndMinutes := max endFromStartTime endFromCreationTime
        decide (now.minutes ≤ attendanceWindowEndMinutes)
      else
        regularWindowOpen lesson now
    | none => regularWindowOpen lesson now

/-- Student lessons page `canMarkAttendance`: same-day check, start
time reached, within `startTimeMinutes +
(lesson.attendanceWindowMinutes || 15)`, and no attendance record yet. -/
def canMarkAttendance (lesson : Lesson) (now : Clock) : Bool :=
  if lesson.dayOfWeek ≠ now.day then false
  else
    let isStarted := decide (lesson.startTimeMinutes ≤ now.minutes)
    let attendanceWindowEndMinutes :=
      lesson.startTimeMinutes + jsOr lesson.attendanceWindowMinutes 15
    let isBeforeWindowEnd := decide (now.minutes ≤ attendanceWindowEndMinutes)
    let isNotMarked := lesson.attendance.isNone
    isStarted && isBeforeWindowEnd && isNotMarked

/-- Student lessons page `isLessonInFuture`: the lesson's weekday is
strictly later than today's, or it is today and its start time has not
been reached. -/
def isLessonInFuture (lesson : Lesson) (now : Clock) : Bool :=
  if now.day < lesson.dayOfWeek then true
  else if lesson.dayOfWeek = now.day ∧ now.minutes < lesson.startTimeMinutes then true
  else false

/-- Student lessons page `isLessonInPast`: the lesson's weekday is
strictly earlier than today's, or it is today and its end time
(`startTimeMinutes + durationMinutes`) is strictly before now. -/
def isLessonInPast (lesson : Lesson) (now : Clock) : Bool :=
  if lesson.dayOfWeek < now.day then true
  else if lesson.dayOfWeek = now.day ∧
      lesson.startTimeMinutes + lesson.durationMinutes < now.minutes then true
  else false

/-- A calendar date as the bulk-attendance page manipulates it: whole
days since a reference Sunday, plus the minutes since midnight (the
time portion).  `getDay()` of such a date is `dayIndex % 7`. -/
structure SimpleDate where
  dayIndex : Int
  minutesOfDay : Int
  deriving Repr, DecidableEq

/-- `getDay()` of a date: its weekday, 0–6 with 0 for Sunday. -/
def dayOfWeekOf (dayIndex : Int) : Int := dayIndex % 7

/-- Bulk-attendance page `calculateLessonDate`: `daysUntilNext =
(lesson.dayOfWeek - currentDayOfWeek + 7) % 7`, then add that many days
to today and clear the time portion.  (For `dayOfWeek` within 0–6 the
left operand of `%` is nonnegative, where the JS remainder agrees with
`Int.emod`.) -/
def calculateLessonDate (lesson : Lesson) (now : SimpleDate) : SimpleDate :=
  let currentDayOfWeek := dayOfWeekOf now.dayIndex
  let daysUntilNext := (lesson.dayOfWeek - currentDayOfWeek + 7) % 7
  { dayIndex := now.dayIndex + daysUntilNext, minutesOfDay := 0 }

/-- Attendance status sent by the bulk-attendance page. -/
inductive AttStatus where
  | present
  | absent
  deriving Repr, DecidableEq

/-- Bulk-attendance mutation URL: `/api/attendance?force=true` when the
override checkbox (`forceAttendance`) is checked, plain
`/api/attendance` otherwise. -/
def bulkAttendanceUrl (forceAttendance : Bool) : String :=
  if forceAttendance then "/api/attendance?force=true" else "/api/attendance"

/-- The student lessons page posts its self-marking mutation to the
fixed URL `/api/attendance`. -/
def studentMarkAttendanceUrl : String := "/api/attendance"

/-- Whether a URL string mentions `force` anywhere (as a character
substring). -/
def mentionsForce (url : String) : Bool :=
  decide (List.IsInfix "force".data url.data)

/-- Observable steps of the bulk-attendance save loop: an HTTP request
being issued, its response arriving (`ok` false when the call throws),
the `setTimeout` pause, and the final results toast. -/
inductive Event where
  | request (studentId : Int) (status : AttStatus) (url : String)
  | response (studentId : Int) (ok : Bool)
  | delay (ms : Int)
  | toast (successful failed : Nat)
  deriving Repr, DecidableEq

/-- The `for (const studentId of studentIds)` loop of
`saveAllAttendance`: each student's mutation is awaited (request then
response) before the next iteration; on success a 100 ms `setTimeout`
is awaited and `successful` incremented, on a thrown error `failed` is
incremented and the loop continues.  `fails` says which students'
requests throw. -/
def saveLoop (force : Bool) (fails : Int → Bool) :
    List (Int × AttStatus) → Nat → Nat → List Event × Nat × Nat
  | [], successful, failed => ([], successful, failed)
  | (studentId, status) :: rest, successful, failed =>
    if fails studentId then
      let r := saveLoop force fails rest successful (failed + 1)
      (Event.request studentId status (bulkAttendanceUrl force) ::
        Event.response studentId false :: r.1, r.2)
    else
      let r := saveLoop force fails rest (successful + 1) failed
      (Event.request studentId status (bulkAttendanceUrl force) ::
        Event.response studentId true :: Event.delay 100 :: r.1, r.2)

/-- `saveAllAttendance`: run the loop over the marked students of
`attendanceData` with both counters at 0, then show the results toast.
Returns the event trace and the final `(successful, failed)` pair. -/
def saveAllAttendance (force : Bool) (fails : Int → Bool)
    (attendanceData : List (Int × AttStatus)) : List Event × Nat × Nat :=
  let r := saveLoop force fails attendanceData 0 0
  (r.1 ++ [Event.toast r.2.1 r.2.2], r.2)

/-- The requests occurring in a trace, in order, as
(student, status) pairs. -/
def requestsOf : List Event → List (Int × AttStatus)
  | [] => []
  | Event.request sid st _ :: rest => (sid, st) :: requestsOf rest
  | _ :: rest => requestsOf rest

/-- The largest number of requests simultaneously in flight along a
trace, starting from `cur` already outstanding: a request opens one, a
response closes one. -/
def maxInFlight : List Event → Nat → Nat
  | [], cur => cur
  | Event.request _ _ _ :: rest, cur => max (cur + 1) (maxInFlight rest (cur + 1))
  | Event.response _ _ :: rest, cur => maxInFlight rest (cur - 1)
  | _ :: rest, cur => maxInFlight rest cur

/-- Every request in the trace is immediately followed by its own
response (the loop awaits each call before doing anything else). -/
def responsesImmediate : List Event → Bool
  | [] => true
  | Event.request sid _ _ :: Event.response sid2 _ :: rest =>
    decide (sid = sid2) && responsesImmediate rest
  | Event.request _ _ _ :: _ => false
  | _ :: rest => responsesImmediate rest

/-- Every successful response is immediately followed by the fixed
100 ms delay. -/
def delaysFollowSuccess : List Event → Bool
  | [] => true
  | Event.response _ true :: rest =>
    (match rest with
     | Event.delay 100 :: _ => true
     | _ => false) && delaysFollowSuccess rest
  | _ :: rest => delaysFollowSuccess rest

/-- `z.coerce.number().min(lo).max(hi)` applied to an already numeric
input. -/
def zNumberMinMax (lo hi : Int) (v : Int) : Option Int :=
  if lo ≤ v then if v ≤ hi then some v else none else none

/-- `z.string().min(n)`. -/
def zStringMin (n : Nat) (s : String) : Option String :=
  if n ≤ s.length then some s else none

/-- `.default(d)`: an absent input is replaced by the default before
the inner checks run. -/
def zWithDefault (check : Int → Option Int) (d : Int) :
    Option Int → Option Int
  | none => check d
  | some v => check v

/-- Raw values arriving at the create-lesson form schema (after zod's
numeric coercion; optional fields may be absent). -/
structure LessonFormInput where
  classId : Int
  subject : String
  dayOfWeek : Int
  startTimeMinutes : Int
  durationMinutes : Int
  location : Option String
  attendanceWindowMinutes : Option Int
  isActive : Option Bool
  deriving Repr, DecidableEq

/-- A successfully parsed create-lesson submission (defaults applied). -/
structure LessonFormData where
  classId : Int
  subject : String
  dayOfWeek : Int
  startTimeMinutes : Int
  durationMinutes : Int
  location : Option String
  attendanceWindowMinutes : Int
  isActive : Bool
  deriving Repr, DecidableEq

/-- The create-lesson page `formSchema`: subject at least 2 characters,
`dayOfWeek` in 0–6, `startTimeMinutes` in 0–1439, `durationMinutes` in
30–240, `attendanceWindowMinutes` in 5–60 defaulting to 30, `location`
optional, `isActive` defaulting to `true`. -/
def formSchemaParse (i : LessonFormInput) : Option LessonFormData :=
  match zStringMin 2 i.subject,
      zNumberMinMax 0 6 i.dayOfWeek,
      zNumberMinMax 0 (24 * 60 - 1) i.startTimeMinutes,
      zNumberMinMax 30 240 i.durationMinutes,
      zWithDefault (zNumberMinMax 5 60) 30 i.attendanceWindowMinutes with
  | some subject, some dow, some stm, some dur, some win =>
    some { classId := i.classId, subject := subject, dayOfWeek := dow,
           startTimeMinutes := stm, durationMinutes := dur,
           location := i.location, attendanceWindowMinutes := win,
           isActive := i.isActive.getD true }
  | _, _, _, _, _ => none

/-- The create-lesson page posts to `/api/lessons` only data the form
schema accepted (`handleSubmit` with `zodResolver(formSchema)` invokes
`onSubmit` only on successful validation). -/
def createLessonPost (i : LessonFormInput) : Option (String × LessonFormData) :=
  (formSchemaParse i).map (fun d => ("/api/lessons", d))

/-- A plain scheduled lesson: Tuesday 9:00, 20-minute window, no
creation timestamp, not yet marked. -/
def regularLesson : Lesson :=
  { id := 1, dayOfWeek := 2, startTimeMinutes := 540, durationMinutes := 60,
    attendanceWindowMinutes := some 20, createdAt := none, attendance := none }

/-- Tuesday 9:10. -/
def regularClock : Clock :=
  { day := 2, minutes := 550, epochMs := 36600000 }

/-- An instant lesson: created Tuesday 10:00 to start at 10:30. -/
def instantLesson : Lesson :=
  { id := 2, dayOfWeek := 2, startTimeMinutes := 630, durationMinutes := 60,
    attendanceWindowMinutes := some 30,
    createdAt := some { epochMs := 36000000, minutesOfDay := 600 },
    attendance := none }

/-- Tuesday 10:05, five minutes after `instantLesson` was created and
25 minutes before it starts. -/
def instantClock : Clock :=
  { day := 2, minutes := 605, epochMs := 36300000 }

/-- A lesson with no `attendanceWindowMinutes`, where the two pages
use different defaults (30 on the dashboard, 15 on the lessons page). -/
def defaultWindowLesson : Lesson :=
  { id := 3, dayOfWeek := 2, startTimeMinutes := 540, durationMinutes := 60,
    attendanceWindowMinutes := none, createdAt := none, attendance := none }

/-- Tuesday 9:20, inside the 30-minute default window but outside the
15-minute one. -/
def defaultWindowClock : Clock :=
  { day := 2, minutes := 560, epochMs := 37200000 }

/-- `regularLesson` with an attendance record already present. -/
def markedLesson : Lesson :=
  { regularLesson with attendance := some 7 }

/-- A concrete "today" for the bulk-attendance page: day 9 of the
reference week-numbering, a Tuesday (9 % 7 = 2), at 10:00. -/
def bulkDate : SimpleDate := { dayIndex := 9, minutesOfDay := 600 }

/-- `regularLesson` with an explicit zero-minute attendance window:
`0` is falsy in JS, so the dashboard's `||` silently replaces it with
the default of 30. -/
def zeroWindowLesson : Lesson :=
  { id := 4, dayOfWeek := 2, startTimeMinutes := 540, durationMinutes := 60,
    attendanceWindowMinutes := some 0, createdAt := none, attendance := none }

/-- The trace, successful count and failed count of `saveLoop`,
followed by the toast: requests appear in data order, each request is
answered before anything else happens, at most one request is ever in
flight, and every success is followed by the 100 ms pause. -/
lemma saveLoop_trace_props (force : Bool) (fails : Int → Bool)
    (data : List (Int × AttStatus)) :
    ∀ (s0 f0 a b : Nat),
      requestsOf ((saveLoop force fails data s0 f0).1 ++ [Event.toast a b]) =
          data ∧
        maxInFlight ((saveLoop force fails data s0 f0).1 ++ [Event.toast a b])
            0 ≤ 1 ∧
        responsesImmediate
            ((saveLoop force fails data s0 f0).1 ++ [Event.toast a b]) = true ∧
        delaysFollowSuccess
            ((saveLoop force fails data s0 f0).1 ++ [Event.toast a b]) = true := by
  induction data with
  | nil =>
    intro s0 f0 a b
    simp [saveLoop, requestsOf, maxInFlight, responsesImmediate,
      delaysFollowSuccess]
  | cons p rest ih =>
    intro s0 f0 a b
    obtain ⟨sid, st⟩ := p
    by_cases hf : fails sid
    · obtain ⟨ih1, ih2, ih3, ih4⟩ := ih s0 (f0 + 1) a b
      simp only [saveLoop, hf, if_pos, List.cons_append]
      refine ⟨?_, ?_, ?_, ?_⟩
      · simp [requestsOf, ih1]
      · simp only [maxInFlight, Nat.add_sub_cancel, List.append_eq]
        omega
      · simp [responsesImmediate, ih3]
      · simp [delaysFollowSuccess, ih4]
    · obtain ⟨ih1, ih2, ih3, ih4⟩ := ih (s0 + 1) f0 a b
      simp only [saveLoop, hf, if_neg, List.cons_append]
      refine ⟨?_, ?_, ?_, ?_⟩
      · simp [requestsOf, ih1]
      · simp only [maxInFlight, Nat.add_sub_cancel, List.append_eq]
        omega
      · simp [responsesImmediate, ih3]
      · simp [delaysFollowSuccess, ih4]

/-- The final counters of `saveLoop`: each starting value plus the
number of non-failing (respectively failing) students in the data. -/
lemma saveLoop_counts (force : Bool) (fails : Int → Bool)
    (data : List (Int × AttStatus)) :
    ∀ (s0 f0 : Nat),
      (saveLoop force fails data s0 f0).2.1 =
          s0 + (data.filter (fun p => !fails p.1)).length ∧
        (saveLoop force fails data s0 f0).2.2 =
          f0 + (data.filter (fun p => fails p.1)).length := by
  induction data with
  | nil => intro s0 f0; simp [saveLoop]
  | cons p rest ih =>
    intro s0 f0
    obtain ⟨sid, st⟩ := p
    by_cases hf : fails sid
    · obtain ⟨ih1, ih2⟩ := ih s0 (f0 + 1)
      simp [saveLoop, hf, List.filter_cons, ih1, ih2]
      omega
    · obtain ⟨ih1, ih2⟩ := ih (s0 + 1) f0
      simp [saveLoop, hf, List.filter_cons, ih1, ih2]
      omega

/-- Splitting a list's length by a boolean predicate. -/
lemma length_filter_not_add_length_filter {α : Type} (p : α → Bool)
    (l : List α) :
    (l.filter (fun x => !p x)).length + (l.filter p).length = l.length := by
  induction l with
  | nil => rfl
  | cons x l ih =>
    by_cases h : p x <;> simp [List.filter_cons, h] <;> omega

/-- C1 counterexample: the claim's interval uses
`attendanceWindowMinutes` itself when present, so for a zero-minute
window it is `[start, start + 0]`; but the code's `||` treats the 0 as
absent and uses 30, so ten minutes after the start the (regular,
non-instant) lesson is still open while the claimed interval has
closed — the stated equivalence fails there. -/
theorem zero_window_claim_fails :
    isAttendanceWindowOpen zeroWindowLesson regularClock = true ∧
      ¬ (zeroWindowLesson.dayOfWeek = regularClock.day ∧
        zeroWindowLesson.startTimeMinutes ≤ regularClock.minutes ∧
        regularClock.minutes ≤ zeroWindowLesson.startTimeMinutes +
          zeroWindowLesson.attendanceWindowMinutes.getD 30) := by
  constructor
  · decide
  · decide

/-- C1 (amended): for a regular (non-instant) lesson — `createdAt`
absent or at least 24 hours before now — the student-dashboard check
`isAttendanceWindowOpen` is true exactly when the lesson is scheduled
for today and the current minutes lie in the closed interval from
`startTimeMinutes` to `startTimeMinutes + w`, where `w` is
`attendanceWindowMinutes` defaulting to 30 when absent or zero (the
JS `||` treats a present 0 as absent). -/
theorem isAttendanceWindowOpen_regular_spec (lesson : Lesson) (now : Clock)
    (hreg : ∀ c, lesson.createdAt = some c → msPerDay ≤ now.epochMs - c.epochMs) :
    isAttendanceWindowOpen lesson now = true ↔
      (lesson.dayOfWeek = now.day ∧
        lesson.startTimeMinutes ≤ now.minutes ∧
        now.minutes ≤ lesson.startTimeMinutes +
          jsOr lesson.attendanceWindowMinutes 30) := by
  by_cases hday : lesson.dayOfWeek = now.day
  · cases hc : lesson.createdAt with
    | none =>
      simp [isAttendanceWindowOpen, hc, hday, regularWindowOpen]
    | some c =>
      have h24 := hreg c hc
      have hnot : ¬ (now.epochMs - c.epochMs < msPerDay) := by omega
      simp [isAttendanceWindowOpen, hc, hday, hnot, regularWindowOpen]
  · simp [isAttendanceWindowOpen, hday]

/-- C1 witness: `regularLesson` at Tuesday 9:10 satisfies the
hypothesis and the equivalence. -/
theorem isAttendanceWindowOpen_regular_spec_witness :
    (∀ c, regularLesson.createdAt = some c →
        msPerDay ≤ regularClock.epochMs - c.epochMs) ∧
      (isAttendanceWindowOpen regularLesson regularClock = true ↔
        (regularLesson.dayOfWeek = regularClock.day ∧
          regularLesson.startTimeMinutes ≤ regularClock.minutes ∧
          regularClock.minutes ≤ regularLesson.startTimeMinutes +
            jsOr regularLesson.attendanceWindowMinutes 30)) :=
  ⟨fun c hc => by simp [regularLesson] at hc,
    isAttendanceWindowOpen_regular_spec regularLesson regularClock
      (fun c hc => by simp [regularLesson] at hc)⟩

/-- C2 counterexample: `instantLesson` is eligible at 10:05, 25
minutes before its 10:30 start, so eligibility can hold strictly
before `lessonStart`. -/
theorem instant_eligibility_before_start :
    isAttendanceWindowOpen instantLesson instantClock = true ∧
      instantClock.minutes < instantLesson.startTimeMinutes := by
  constructor
  · decide
  · decide

/-- C2 (amended): for regular (non-instant) lessons the dashboard
eligibility check returns true only at or after the lesson's start
time; instant lessons can be eligible strictly before the start. -/
theorem eligibility_not_before_start_regular (lesson : Lesson) (now : Clock)
    (hreg : isInstantLesson lesson now = false)
    (hopen : isAttendanceWindowOpen lesson now = true) :
    lesson.startTimeMinutes ≤ now.minutes := by
  by_cases hday : lesson.dayOfWeek = now.day
  · cases hc : lesson.createdAt with
    | none =>
      simp [isAttendanceWindowOpen, hc, hday, regularWindowOpen] at hopen
      exact hopen.1
    | some c =>
      simp [isInstantLesson, hc] at hreg
      simp [isAttendanceWindowOpen, hc, hday, regularWindowOpen,
        not_lt.mpr hreg] at hopen
      exact hopen.1
  · simp [isAttendanceWindowOpen, hday] at hopen

/-- C2 witness: `regularLesson` at Tuesday 9:10 is non-instant, open,
and indeed past its start time. -/
theorem eligibility_not_before_start_regular_witness :
    isInstantLesson regularLesson regularClock = false ∧
      isAttendanceWindowOpen regularLesson regularClock = true ∧
      regularLesson.startTimeMinutes ≤ regularClock.minutes :=
  ⟨by decide, by decide,
    eligibility_not_before_start_regular regularLesson regularClock
      (by decide) (by decide)⟩

/-- C3: the dashboard check and the lessons-page check disagree on
some input — here a lesson with no explicit window, 20 minutes after
its start, inside the dashboard's default 30-minute window but outside
the lessons page's default 15-minute one. -/
theorem eligibility_checks_disagree :
    ∃ (lesson : Lesson) (now : Clock),
      isAttendanceWindowOpen lesson now ≠ canMarkAttendance lesson now :=
  ⟨defaultWindowLesson, defaultWindowClock, by decide⟩

/-- C5: on the student lessons page any lesson that already carries an
attendance record can never be marked again, whatever the time. -/
theorem canMarkAttendance_requires_unmarked (lesson : Lesson) (now : Clock)
    (hmarked : lesson.attendance.isSome = true) :
    canMarkAttendance lesson now = false := by
  cases h : lesson.attendance with
  | none => simp [h] at hmarked
  | some a => simp [canMarkAttendance, h]

/-- C5 witness: an already marked lesson at a time when the window is
otherwise open. -/
theorem canMarkAttendance_requires_unmarked_witness :
    markedLesson.attendance.isSome = true ∧
      canMarkAttendance markedLesson regularClock = false :=
  ⟨by decide,
    canMarkAttendance_requires_unmarked markedLesson regularClock (by decide)⟩

/-- C4: the bulk-attendance page posts to `/api/attendance?force=true`
exactly when the override checkbox is checked and to the plain
`/api/attendance` otherwise, while the student lessons page always
posts to a URL with no `force` parameter. -/
theorem attendance_post_force_param :
    bulkAttendanceUrl true = "/api/attendance?force=true" ∧
      bulkAttendanceUrl false = studentMarkAttendanceUrl ∧
      (∀ force : Bool, mentionsForce (bulkAttendanceUrl force) = force) ∧
      mentionsForce studentMarkAttendanceUrl = false := by
  refine ⟨rfl, rfl, fun force => ?_, by decide⟩
  cases force
  · decide
  · decide

/-- C6: `saveAllAttendance` is strictly sequential — it issues exactly
one request per entry of `attendanceData` in order, each request's
response arrives before anything further happens (so at most one
request is ever in flight), and each successful call is followed by
the fixed 100 ms delay. -/
theorem saveAllAttendance_sequential (force : Bool) (fails : Int → Bool)
    (attendanceData : List (Int × AttStatus)) :
    requestsOf (saveAllAttendance force fails attendanceData).1 =
        attendanceData ∧
      maxInFlight (saveAllAttendance force fails attendanceData).1 0 ≤ 1 ∧
      responsesImmediate (saveAllAttendance force fails attendanceData).1 =
        true ∧
      delaysFollowSuccess (saveAllAttendance force fails attendanceData).1 =
        true := by
  have h := saveLoop_trace_props force fails attendanceData 0 0
    (saveLoop force fails attendanceData 0 0).2.1
    (saveLoop force fails attendanceData 0 0).2.2
  exact h

/-- C7: every marked student is attempted exactly once with no retry,
a failing request only increments the `failed` counter and the loop
continues, the two counters always add up to the number of marked
students, and the trace ends with the results toast. -/
theorem saveAllAttendance_error_handling (force : Bool) (fails : Int → Bool)
    (attendanceData : List (Int × AttStatus)) :
    (saveAllAttendance force fails attendanceData).2.1 +
        (saveAllAttendance force fails attendanceData).2.2 =
      attendanceData.length ∧
      (saveAllAttendance force fails attendanceData).2.1 =
        (attendanceData.filter (fun p => !fails p.1)).length ∧
      (saveAllAttendance force fails attendanceData).2.2 =
        (attendanceData.filter (fun p => fails p.1)).length ∧
      requestsOf (saveAllAttendance force fails attendanceData).1 =
        attendanceData ∧
      (saveAllAttendance force fails attendanceData).1.getLast? =
        some (Event.toast (saveAllAttendance force fails attendanceData).2.1
          (saveAllAttendance force fails attendanceData).2.2) := by
  obtain ⟨hs, hf⟩ := saveLoop_counts force fails attendanceData 0 0
  have hreq := (saveLoop_trace_props force fails attendanceData 0 0
    (saveLoop force fails attendanceData 0 0).2.1
    (saveLoop force fails attendanceData 0 0).2.2).1
  refine ⟨?_, ?_, ?_, hreq, ?_⟩
  · have := length_filter_not_add_length_filter (fun p => fails p.1)
      attendanceData
    simp only [saveAllAttendance, hs, hf]
    omega
  · simpa only [saveAllAttendance, Nat.zero_add] using hs
  · simpa only [saveAllAttendance, Nat.zero_add] using hf
  · simp only [saveAllAttendance]
    exact List.getLast?_concat _

/-- A numeric range check succeeds exactly on values within bounds. -/
lemma zNumberMinMax_isSome (lo hi v : Int) :
    (zNumberMinMax lo hi v).isSome = true ↔ (lo ≤ v ∧ v ≤ hi) := by
  unfold zNumberMinMax
  split_ifs <;> simp_all

/-- A string length check succeeds exactly on long-enough strings. -/
lemma zStringMin_isSome (n : Nat) (s : String) :
    (zStringMin n s).isSome = true ↔ n ≤ s.length := by
  unfold zStringMin
  split_ifs <;> simp_all

/-- The defaulted window schema accepts an absent value (via the
default 30) and a present value exactly when it is within 5–60. -/
lemma zWindow_isSome (x : Option Int) :
    (zWithDefault (zNumberMinMax 5 60) 30 x).isSome = true ↔
      ∀ w, x = some w → 5 ≤ w ∧ w ≤ 60 := by
  cases x with
  | none =>
    norm_num [zWithDefault, zNumberMinMax]
    intro w hw
    exact absurd hw (by simp)
  | some v => simp [zWithDefault, zNumberMinMax_isSome]

/-- The form parse succeeds exactly when every field schema does. -/
lemma formSchemaParse_isSome_eq (i : LessonFormInput) :
    (formSchemaParse i).isSome =
      ((zStringMin 2 i.subject).isSome &&
        (zNumberMinMax 0 6 i.dayOfWeek).isSome &&
        (zNumberMinMax 0 (24 * 60 - 1) i.startTimeMinutes).isSome &&
        (zNumberMinMax 30 240 i.durationMinutes).isSome &&
        (zWithDefault (zNumberMinMax 5 60) 30
          i.attendanceWindowMinutes).isSome) := by
  unfold formSchemaParse
  cases zStringMin 2 i.subject <;>
    cases zNumberMinMax 0 6 i.dayOfWeek <;>
    cases zNumberMinMax 0 (24 * 60 - 1) i.startTimeMinutes <;>
    cases zNumberMinMax 30 240 i.durationMinutes <;>
    cases zWithDefault (zNumberMinMax 5 60) 30 i.attendanceWindowMinutes <;>
    rfl

/-- When the window field is absent, a successful parse records the
default of 30. -/
lemma formSchemaParse_window_default (i : LessonFormInput)
    (d : LessonFormData) (hd : formSchemaParse i = some d)
    (hnone : i.attendanceWindowMinutes = none) :
    d.attendanceWindowMinutes = 30 := by
  have h30 : zWithDefault (zNumberMinMax 5 60) 30 none = some 30 := by
    norm_num [zWithDefault, zNumberMinMax]
  unfold formSchemaParse at hd
  rw [hnone, h30] at hd
  generalize hg1 : zStringMin 2 i.subject = o1 at hd
  generalize hg2 : zNumberMinMax 0 6 i.dayOfWeek = o2 at hd
  generalize hg3 : zNumberMinMax 0 (24 * 60 - 1) i.startTimeMinutes = o3 at hd
  generalize hg4 : zNumberMinMax 30 240 i.durationMinutes = o4 at hd
  cases o1 <;> cases o2 <;> cases o3 <;> cases o4 <;> simp at hd
  subst hd
  rfl

/-- C8: the create-lesson form schema accepts a submission exactly when
the subject has at least 2 characters, `dayOfWeek` lies in 0–6,
`startTimeMinutes` in 0–1439, `durationMinutes` in 30–240, and
`attendanceWindowMinutes`, when present, in 5–60 (defaulting to 30 when
absent); a POST to `/api/lessons` happens only for accepted data. -/
theorem formSchema_accepts_iff (i : LessonFormInput) :
    ((formSchemaParse i).isSome = true ↔
      (2 ≤ i.subject.length ∧
        0 ≤ i.dayOfWeek ∧ i.dayOfWeek ≤ 6 ∧
        0 ≤ i.startTimeMinutes ∧ i.startTimeMinutes ≤ 1439 ∧
        30 ≤ i.durationMinutes ∧ i.durationMinutes ≤ 240 ∧
        ∀ w, i.attendanceWindowMinutes = some w → 5 ≤ w ∧ w ≤ 60)) ∧
      (∀ d, formSchemaParse i = some d → i.attendanceWindowMinutes = none →
        d.attendanceWindowMinutes = 30) ∧
      (∀ p, createLessonPost i = some p → p.1 = "/api/lessons") ∧
      (formSchemaParse i = none → createLessonPost i = none) := by
  refine ⟨?_, fun d hd hn => formSchemaParse_window_default i d hd hn,
    ?_, ?_⟩
  · rw [formSchemaParse_isSome_eq]
    simp only [Bool.and_eq_true, zStringMin_isSome, zNumberMinMax_isSome,
      zWindow_isSome, and_assoc]
    norm_num
  · intro p hp
    simp only [createLessonPost, Option.map_eq_some'] at hp
    obtain ⟨d, _, rfl⟩ := hp
    rfl
  · intro h
    simp [createLessonPost, h]

/-- C9: for a lesson with `dayOfWeek` in 0–6, `calculateLessonDate`
returns the unique date among today and the next six days whose
weekday matches the lesson's, at midnight; when the lesson's weekday
is today's it returns today itself (offset 0, not 7). -/
theorem calculateLessonDate_spec (lesson : Lesson) (now : SimpleDate)
    (h0 : 0 ≤ lesson.dayOfWeek) (h6 : lesson.dayOfWeek ≤ 6) :
    (calculateLessonDate lesson now).minutesOfDay = 0 ∧
      now.dayIndex ≤ (calculateLessonDate lesson now).dayIndex ∧
      (calculateLessonDate lesson now).dayIndex ≤ now.dayIndex + 6 ∧
      dayOfWeekOf (calculateLessonDate lesson now).dayIndex =
        lesson.dayOfWeek ∧
      (∀ k : Int, now.dayIndex ≤ k → k ≤ now.dayIndex + 6 →
        dayOfWeekOf k = lesson.dayOfWeek →
        k = (calculateLessonDate lesson now).dayIndex) ∧
      (lesson.dayOfWeek = dayOfWeekOf now.dayIndex →
        (calculateLessonDate lesson now).dayIndex = now.dayIndex) := by
  have hm : (calculateLessonDate lesson now).minutesOfDay = 0 := rfl
  have hd : (calculateLessonDate lesson now).dayIndex =
      now.dayIndex + (lesson.dayOfWeek - now.dayIndex % 7 + 7) % 7 := rfl
  refine ⟨hm, ?_, ?_, ?_, ?_, ?_⟩
  · rw [hd]
    omega
  · rw [hd]
    omega
  · unfold dayOfWeekOf
    rw [hd]
    omega
  · intro k hk1 hk2 hk3
    unfold dayOfWeekOf at hk3
    rw [hd]
    omega
  · intro h
    unfold dayOfWeekOf at h
    rw [hd]
    omega

/-- C9 witness: a Tuesday lesson looked up on a Tuesday resolves to
that same day. -/
theorem calculateLessonDate_spec_witness :
    0 ≤ regularLesson.dayOfWeek ∧ regularLesson.dayOfWeek ≤ 6 ∧
      dayOfWeekOf (calculateLessonDate regularLesson bulkDate).dayIndex =
        regularLesson.dayOfWeek ∧
      (calculateLessonDate regularLesson bulkDate).dayIndex =
        bulkDate.dayIndex :=
  ⟨by decide, by decide,
    (calculateLessonDate_spec regularLesson bulkDate (by decide)
      (by decide)).2.2.2.1,
    (calculateLessonDate_spec regularLesson bulkDate (by decide)
      (by decide)).2.2.2.2.2 (by decide)⟩

/-- C10: the lessons-page classifiers are mutually exclusive but not
exhaustive — a lesson running right now (today, between start and
start + duration) is neither upcoming nor past — and the weekday
comparison is non-cyclic, so an earlier weekday is never upcoming. -/
theorem lessons_page_classification (lesson : Lesson) (now : Clock)
    (hdur : 0 ≤ lesson.durationMinutes) :
    (¬ (isLessonInFuture lesson now = true ∧
        isLessonInPast lesson now = true)) ∧
      (lesson.dayOfWeek = now.day →
        lesson.startTimeMinutes ≤ now.minutes →
        now.minutes ≤ lesson.startTimeMinutes + lesson.durationMinutes →
        isLessonInFuture lesson now = false ∧
          isLessonInPast lesson now = false) ∧
      (lesson.dayOfWeek < now.day → isLessonInFuture lesson now = false) := by
  unfold isLessonInFuture isLessonInPast
  refine ⟨?_, ?_, ?_⟩
  · split_ifs <;> (try simp_all) <;> omega
  · intro h1 h2 h3
    split_ifs <;> try simp_all
    all_goals omega
  · intro h
    split_ifs <;> try simp_all
    all_goals omega

/-- C10 witness: `regularLesson` is running at Tuesday 9:10 and is
classified neither upcoming nor past. -/
theorem lessons_page_classification_witness :
    0 ≤ regularLesson.durationMinutes ∧
      isLessonInFuture regularLesson regularClock = false ∧
      isLessonInPast regularLesson regularClock = false :=
  ⟨by decide,
    (lessons_page_classification regularLesson regularClock (by decide)).2.1
      (by decide) (by decide) (by decide)⟩

end CollegeAttendance
